import Mathlib

/-
Verification of the Proxmox shared-LVM CSI driver's controller volume
lifecycle engine, as a shallow embedding of the Python sources
(proxmox_csi/proxmox/wwn.py, volume/volume_id.py, proxmox/operations.py,
proxmox/client.py, services/controller.py).

Modelling conventions:
- Python strings are Lean `String`s; all strings involved are ASCII, so
  `encode('utf-8')` is modelled as the list of code points.
- Python dicts (VM configs, SCSI maps, publish contexts) are association
  lists in insertion order, which is the order Python iterates them.
- Machine integers are `Int`/`Nat` (Python ints are unbounded).
- Fallible calls run in `ExceptT PyErr (StateM St)`: exceptions carry a
  message, and state changes made before an exception survive a
  `try/except` exactly as in Python.
- `grpc.ServicerContext.abort(code, details)` records the status and then
  raises a plain `Exception()` (grpc Python's documented behaviour); a
  handler's own `except Exception` therefore catches an abort raised
  inside its `try` block, and the `context.abort(INTERNAL, str(e))` in the
  except clause — where `str` of the bare abort exception is `""` —
  becomes the status the client observes.  The abort raised last wins.
-/

namespace ProxmoxCSI

/-! ## Python semantic helpers -/

/-- ASCII decimal digit test, `c in "0123456789"`. -/
def isDigitChar (c : Char) : Bool := 48 ≤ c.toNat && c.toNat ≤ 57

/-- Continue parsing a Python integer literal after its first digit:
digits, optionally separated by single underscores (Python 3 `int`). -/
def digitsCore : List Char → Nat → Option Nat
  | [], acc => some acc
  | '_' :: c :: rest, acc =>
    if isDigitChar c then digitsCore rest (acc * 10 + (c.toNat - 48)) else none
  | ['_'], _ => none
  | c :: rest, acc =>
    if isDigitChar c then digitsCore rest (acc * 10 + (c.toNat - 48)) else none

/-- Parse a nonempty digit run (with underscores) as a natural number. -/
def pyIntCore : List Char → Option Nat
  | c :: rest => if isDigitChar c then digitsCore rest (c.toNat - 48) else none
  | [] => none

/-- Python whitespace stripped by `int(str)`. -/
def isPySpace (c : Char) : Bool :=
  c = ' ' || c = '\t' || c = '\n' || c = '\r' || c.toNat = 11 || c.toNat = 12

/-- Python `int(s)`: strip whitespace, optional sign, decimal digits with
underscores; `none` models the `ValueError`. -/
def pyInt? (s : String) : Option Int :=
  let cs := (((s.data.dropWhile isPySpace).reverse.dropWhile isPySpace).reverse)
  match cs with
  | '-' :: rest => (pyIntCore rest).map (fun n => -(n : Int))
  | '+' :: rest => (pyIntCore rest).map (fun n => (n : Int))
  | _ => (pyIntCore cs).map (fun n => (n : Int))

/-- `leadsWith pre l`: the char list `pre` starts the char list `l`. -/
def leadsWith : List Char → List Char → Bool
  | [], _ => true
  | _ :: _, [] => false
  | a :: as, b :: bs => a = b && leadsWith as bs

/-- Python `s.startswith(pre)`. -/
def strLeads (s pre : String) : Bool := leadsWith pre.data s.data

/-- Python `s[n:]` (slicing is by code points). -/
def strDrop (s : String) (n : Nat) : String := ⟨s.data.drop n⟩

/-- Worker for `pyContains`: does `needle` start at any position of the list? -/
def containsFrom (needle : List Char) : List Char → Bool
  | [] => leadsWith needle []
  | c :: rest => leadsWith needle (c :: rest) || containsFrom needle rest

/-- Python `needle in hay` on strings: substring containment. -/
def pyContains (hay needle : String) : Bool := containsFrom needle.data hay.data

/-- Split a char list on `/`, keeping empty pieces, like Python `str.split('/')`. -/
def splitSlashAux : List Char → List Char → List String
  | [], acc => [⟨acc.reverse⟩]
  | '/' :: rest, acc => ⟨acc.reverse⟩ :: splitSlashAux rest []
  | c :: rest, acc => splitSlashAux rest (c :: acc)

/-- Python `s.split('/')`. -/
def pySplitSlash (s : String) : List String := splitSlashAux s.data []

/-- Lowercase hex digit for a nibble. -/
def hexDigitChar (n : Nat) : Char :=
  if n < 10 then Char.ofNat (48 + n) else Char.ofNat (87 + n)

/-- Two lowercase hex digits per byte, in order: Python `bytes.hex()`. -/
def bytesToHex : List Nat → List Char
  | [] => []
  | b :: rest => hexDigitChar (b / 16) :: hexDigitChar (b % 16) :: bytesToHex rest

/-- Python `bs.hex()` for a byte sequence. -/
def pyBytesHex (bs : List Nat) : String := ⟨bytesToHex bs⟩

/-- UTF-8 bytes of an ASCII string: the code points themselves. -/
def asciiBytes (s : String) : List Nat := s.data.map Char.toNat

/-- Python `f"{i:02d}"`: decimal, zero-padded on the left to width 2. -/
def pad2i (i : Int) : String :=
  if 0 ≤ i && i < 10 then "0" ++ toString i else toString i

/-- ASCII `str.lower()` (all names in play are ASCII). -/
def lowerChar (c : Char) : Char :=
  if 65 ≤ c.toNat && c.toNat ≤ 90 then Char.ofNat (c.toNat + 32) else c

/-- Python `s.lower()`. -/
def pyLower (s : String) : String := ⟨s.data.map lowerChar⟩

/-! ## constants.py -/

def STORAGE_VMID : Int := 9999
def LUN_MIN : Nat := 1
def LUN_MAX : Nat := 29
def DEVICE_PREFIX : String := "scsi"
def MIN_VOLUME_SIZE : Int := 512 * 1024 * 1024
def DEFAULT_VOLUME_SIZE : Int := 10 * 1024 * 1024 * 1024

/-! ## proxmox/wwn.py -/

/-- `calculate_wwn(lun)`: hex of the UTF-8 bytes of `f"PVC-ID{lun:02d}"`. -/
def calculate_wwn (lun : Int) : String :=
  pyBytesHex (asciiBytes ("PVC-ID" ++ pad2i lun))

/-- The used-LUN set of `find_free_lun`: for each key starting with
`scsi`, `int(device[4:])` when it parses (a `ValueError` is skipped). -/
def usedLuns (scsiDisks : List (String × String)) : List Int :=
  scsiDisks.filterMap (fun kv =>
    if strLeads kv.1 "scsi" then pyInt? (strDrop kv.1 4) else none)

/-- `find_free_lun(scsi_disks, min_lun, max_lun)`: first lun in
`range(min_lun, max_lun + 1)` not in the used set. -/
def find_free_lun (scsiDisks : List (String × String)) (minLun maxLun : Nat) : Option Nat :=
  (List.range' minLun (maxLun + 1 - minLun)).find?
    (fun lun => !((usedLuns scsiDisks).contains (lun : Int)))

/-- `is_disk_attached(scsi_disks, disk_name)`: first entry whose value
contains `disk_name` as a substring and whose key starts with `scsi`;
its numeric suffix is the LUN, an unparsable suffix is skipped. -/
def is_disk_attached : List (String × String) → String → Option Int
  | [], _ => none
  | (device, diskString) :: rest, diskName =>
    if pyContains diskString diskName && strLeads device "scsi" then
      match pyInt? (strDrop device 4) with
      | some lun => some lun
      | none => is_disk_attached rest diskName
    else is_disk_attached rest diskName

/-! ## volume/volume_id.py -/

/-- `create_volume_id(region, zone, storage, pvc_name, vmid)`:
`str(VolumeID.create(...))`, the 4-part `region/zone/storage/vm-<vmid>-<pvc>`. -/
def create_volume_id (region zone storage pvcName : String) (vmid : Int) : String :=
  region ++ "/" ++ zone ++ "/" ++ storage ++ "/" ++
    ("vm-" ++ toString vmid ++ "-" ++ pvcName)

/-- `parse_volume_id(volume_id, default_region, default_zone)`:
`VolumeID.from_string` accepts only `/storage/disk`; `.error` models the
`ValueError`, carrying `str(e)`. -/
def parse_volume_id (volumeId defaultRegion defaultZone : String) :
    Except String (String × String × String × String) :=
  if strLeads volumeId "/" then
    match pySplitSlash (strDrop volumeId 1) with
    | [storage, disk] => .ok (defaultRegion, defaultZone, storage, disk)
    | _ => .error ("Invalid volume ID format: " ++ volumeId ++ ", expected /storage/disk")
  else .error ("Invalid volume ID format: " ++ volumeId ++ ", must start with /")

/-! ## Mock cluster state and the Python exception model -/

instance {ε α : Type} [DecidableEq ε] [DecidableEq α] : DecidableEq (Except ε α)
  | .error a, .error b =>
    if h : a = b then .isTrue (by rw [h]) else .isFalse (by intro hc; cases hc; exact h rfl)
  | .error _, .ok _ => .isFalse (by intro hc; cases hc)
  | .ok _, .error _ => .isFalse (by intro hc; cases hc)
  | .ok a, .ok b =>
    if h : a = b then .isTrue (by rw [h]) else .isFalse (by intro hc; cases hc; exact h rfl)

/-- A VM-config value: `extract_scsi_disks` keeps only string values. -/
inductive ConfigVal where
  | s (v : String)
  | other
deriving DecidableEq, Repr

/-- One VM as reported by `GET /nodes/<node>/qemu` plus its config. -/
structure VMRec where
  vmid : Int
  name : String
  config : List (String × ConfigVal)
deriving DecidableEq, Repr

/-- gRPC status codes used by the controller service. -/
inductive Status where
  | invalidArgument
  | notFound
  | failedPrecondition
  | resourceExhausted
  | internal
  | unknown
deriving DecidableEq, Repr

/-- A Python exception in flight: a grpc abort (which raises a bare
`Exception()` after recording code and details), an ordinary exception,
or a `requests` `HTTPError` from `raise_for_status()`. -/
inductive PyErr where
  | abortExc (code : Status) (details : String)
  | exc (msg : String)
  | http (status : Nat) (msg : String)
deriving DecidableEq, Repr

/-- Python `str(e)`: the abort's bare `Exception()` stringifies to `""`. -/
def pyStrOf : PyErr → String
  | .abortExc _ _ => ""
  | .exc m => m
  | .http _ m => m

/-- State of one cluster's hypervisor behind `ProxmoxClient`, plus
failure injection and a log of every mutating API call.  `vmsFail` and
`cfgFail` make the next so-many `get_vms` / `get_vm_config` calls raise
(transient API errors); `deleteStatus` is the HTTP status the hypervisor
answers to `delete_vm_disk`. -/
structure St where
  nodes : List String
  vms : List (String × List VMRec)
  vmsFail : Nat
  cfgFail : Nat
  deleteStatus : Nat
  updateLog : List (Int × String × List (String × String))
  createLog : List (Int × String × String × String × String)
  deleteLog : List (Int × String × String × String)
  resizeLog : List (Int × String × String × String)
deriving DecidableEq, Repr

/-- The monad of Python code using one `ProxmoxClient`: exceptions plus
hypervisor state; state mutated before an exception survives `except`. -/
abbrev PM (α : Type) : Type := ExceptT PyErr (StateM St) α

/-- Run a client computation on a state. -/
def runPM {α : Type} (m : PM α) (st : St) : Except PyErr α × St :=
  (ExceptT.run m).run st

/-! ## proxmox/client.py -/

def lookupNode (st : St) (node : String) : Option (List VMRec) :=
  (st.vms.find? (fun p => p.1 == node)).map (fun p => p.2)

/-- `get_nodes()`. -/
def get_nodes : PM (List String) := do
  let st ← get
  pure st.nodes

/-- `get_vms(node)`: raises while the injected failure budget lasts. -/
def get_vms (node : String) : PM (List VMRec) := do
  let st ← get
  if st.vmsFail > 0 then
    set { st with vmsFail := st.vmsFail - 1 }
    throw (.http 500 ("500 Server Error: /nodes/" ++ node ++ "/qemu"))
  else
    match lookupNode st node with
    | some l => pure l
    | none => throw (.http 500 ("500 Server Error: node " ++ node ++ " unknown"))

/-- `get_vm_config(vmid, node)`. -/
def get_vm_config (vmid : Int) (node : String) : PM (List (String × ConfigVal)) := do
  let st ← get
  if st.cfgFail > 0 then
    set { st with cfgFail := st.cfgFail - 1 }
    throw (.http 500 "500 Server Error: config")
  else
    match lookupNode st node with
    | some l =>
      match l.find? (fun vm => vm.vmid == vmid) with
      | some vm => pure vm.config
      | none => throw (.http 404 "404 Client Error: vm not found")
    | none => throw (.http 500 ("500 Server Error: node " ++ node ++ " unknown"))

def setConfigKey (cfg : List (String × ConfigVal)) (k : String) (v : ConfigVal) :
    List (String × ConfigVal) :=
  if cfg.any (fun kv => kv.1 == k) then
    cfg.map (fun kv => if kv.1 == k then (k, v) else kv)
  else cfg ++ [(k, v)]

def removeConfigKey (cfg : List (String × ConfigVal)) (k : String) :
    List (String × ConfigVal) :=
  cfg.filter (fun kv => kv.1 != k)

/-- The hypervisor's handling of a VM-config POST body: a `delete` key
detaches the named device, any other key is set to the given string. -/
def applyPatch (cfg : List (String × ConfigVal)) : List (String × String) →
    List (String × ConfigVal)
  | [] => cfg
  | (k, v) :: rest =>
    if k == "delete" then applyPatch (removeConfigKey cfg v) rest
    else applyPatch (setConfigKey cfg k (.s v)) rest

/-- `update_vm_config(vmid, node, config)`: applies the patch and logs. -/
def update_vm_config (vmid : Int) (node : String) (patch : List (String × String)) :
    PM Unit := do
  let st ← get
  match lookupNode st node with
  | none => throw (.http 500 ("500 Server Error: node " ++ node ++ " unknown"))
  | some l =>
    match l.find? (fun vm => vm.vmid == vmid) with
    | none => throw (.http 404 "404 Client Error: vm not found")
    | some _ =>
      let newList := l.map (fun vm =>
        if vm.vmid == vmid then { vm with config := applyPatch vm.config patch } else vm)
      set { st with
        vms := st.vms.map (fun (p : String × List VMRec) =>
          if p.1 == node then (p.1, newList) else p),
        updateLog := st.updateLog ++ [(vmid, node, patch)] }

/-- `create_vm_disk(vmid, node, storage, filename, size_bytes)`: the size
is transmitted as `f"{int(size_bytes / 1024**3)}G"`.  Python divides in
floating point and `int` truncates toward zero; below `2^53` bytes the
division is exact, where it coincides with `Int.div`. -/
def create_vm_disk (vmid : Int) (node storage filename : String) (sizeBytes : Int) :
    PM Unit := do
  let sizeStr := toString (sizeBytes.tdiv (1024 * 1024 * 1024)) ++ "G"
  modify (fun st =>
    { st with createLog := st.createLog ++ [(vmid, node, storage, filename, sizeStr)] })

/-- `delete_vm_disk(vmid, node, storage, volume)`: the DELETE request is
issued, then `raise_for_status()` raises on a 4xx/5xx answer — there is
no special-casing of 404 anywhere on the delete path. -/
def delete_vm_disk (vmid : Int) (node storage volume : String) : PM Unit := do
  modify (fun st =>
    { st with deleteLog := st.deleteLog ++ [(vmid, node, storage, volume)] })
  let st ← get
  if st.deleteStatus ≥ 400 then
    throw (.http st.deleteStatus (toString st.deleteStatus ++ " Client Error: DELETE content"))
  else pure ()

/-- `resize_vm_disk(vmid, node, device, size)`. -/
def resize_vm_disk (vmid : Int) (node device size : String) : PM Unit := do
  modify (fun st =>
    { st with resizeLog := st.resizeLog ++ [(vmid, node, device, size)] })

/-- `extract_scsi_disks(vm_config)`: keys starting with `scsi` whose
values are strings, in dict order. -/
def extract_scsi_disks (cfg : List (String × ConfigVal)) : List (String × String) :=
  cfg.filterMap (fun kv =>
    match kv.2 with
    | .s v => if strLeads kv.1 "scsi" then some (kv.1, v) else none
    | .other => none)

/-- Node loop of `find_vm_node`: per-node errors are caught and skipped. -/
def find_vm_node_go (vmid : Int) : List String → PM (Option String)
  | [] => pure none
  | node :: rest => do
    let found ← try
      let vms ← get_vms node
      pure (vms.any (fun vm => vm.vmid == vmid))
    catch _ =>
      pure false
    if found then pure (some node) else find_vm_node_go vmid rest

/-- `find_vm_node(vmid)`: first node whose VM list contains `vmid`. -/
def find_vm_node (vmid : Int) : PM (Option String) := do
  let nodes ← get_nodes
  find_vm_node_go vmid nodes

/-- Node loop of `find_vm_by_name`: case-insensitive exact name match. -/
def find_vm_by_name_go (vmName : String) : List String → PM (Option (Int × String))
  | [] => pure none
  | node :: rest => do
    let r ← try
      let vms ← get_vms node
      pure ((vms.find? (fun vm => pyLower vm.name == pyLower vmName)).map
        (fun vm => (vm.vmid, node)))
    catch _ =>
      pure none
    match r with
    | some hit => pure (some hit)
    | none => find_vm_by_name_go vmName rest

/-- `find_vm_by_name(vm_name)`. -/
def find_vm_by_name (vmName : String) : PM (Option (Int × String)) := do
  let nodes ← get_nodes
  find_vm_by_name_go vmName nodes

/-! ## proxmox/operations.py -/

/-- `create_volume(client, region, zone, storage, pvc_name, size_bytes)`. -/
def create_volume (region zone storage pvcName : String) (sizeBytes : Int) : PM String := do
  let diskName := "vm-" ++ toString STORAGE_VMID ++ "-" ++ pvcName
  create_vm_disk STORAGE_VMID zone storage diskName sizeBytes
  pure (create_volume_id region zone storage pvcName STORAGE_VMID)

/-- `delete_volume(client, volume_id, default_region)`: the parse
`ValueError` or any client error propagates; a 404 answer is not caught. -/
def delete_volume (volumeId defaultRegion : String) : PM Bool := do
  match parse_volume_id volumeId defaultRegion "" with
  | .error m => throw (.exc m)
  | .ok (_, zone, storage, disk) =>
    delete_vm_disk STORAGE_VMID zone storage disk
    pure true

/-- `attach_volume(client, vmid, volume_id, default_region)`: idempotency
check by `is_disk_attached`, then `find_free_lun`, then one
`update_vm_config`; returns the publish context. -/
def attach_volume (vmid : Int) (volumeId defaultRegion : String) :
    PM (List (String × String)) := do
  match parse_volume_id volumeId defaultRegion "" with
  | .error m => throw (.exc m)
  | .ok (_, _, storage, disk) =>
    let vmNodeOpt ← find_vm_node vmid
    match vmNodeOpt with
    | none => throw (.exc ("VM " ++ toString vmid ++ " not found on any node"))
    | some vmNode =>
      let vmConfig ← get_vm_config vmid vmNode
      let scsiDisks := extract_scsi_disks vmConfig
      match is_disk_attached scsiDisks disk with
      | some existingLun =>
        let wwn := calculate_wwn existingLun
        pure [("DevicePath", "/dev/disk/by-id/wwn-0x" ++ wwn), ("lun", toString existingLun)]
      | none =>
        match find_free_lun scsiDisks LUN_MIN LUN_MAX with
        | none => throw (.exc ("No free LUN available for VM " ++ toString vmid))
        | some lun =>
          let wwn := calculate_wwn (lun : Int)
          let device := DEVICE_PREFIX ++ toString lun
          let diskString := storage ++ ":" ++ disk ++ ",wwn=0x" ++ wwn ++ ",backup=0"
          update_vm_config vmid vmNode [(device, diskString)]
          pure [("DevicePath", "/dev/disk/by-id/wwn-0x" ++ wwn), ("lun", toString lun)]

/-- `detach_volume(client, vmid, volume_id, default_region)`. -/
def detach_volume (vmid : Int) (volumeId defaultRegion : String) : PM Bool := do
  match parse_volume_id volumeId defaultRegion "" with
  | .error m => throw (.exc m)
  | .ok (_, _, _, disk) =>
    let vmNodeOpt ← find_vm_node vmid
    match vmNodeOpt with
    | none => pure true
    | some vmNode =>
      let vmConfig ← get_vm_config vmid vmNode
      match is_disk_attached (extract_scsi_disks vmConfig) disk with
      | none => pure true
      | some lun =>
        let device := DEVICE_PREFIX ++ toString lun
        update_vm_config vmid vmNode [("delete", device)]
        pure true

/-- VM loop of `check_existing_attachments`: `STORAGE_VMID` is skipped,
a per-VM error is caught and the scan continues with the next VM. -/
def scanVMs (diskName node : String) : List VMRec → PM (Option (Int × Int))
  | [] => pure none
  | vm :: rest => do
    if vm.vmid == STORAGE_VMID then
      scanVMs diskName node rest
    else
      let r ← try
        let cfg ← get_vm_config vm.vmid node
        pure (is_disk_attached (extract_scsi_disks cfg) diskName)
      catch _ =>
        pure none
      match r with
      | some lun => pure (some (vm.vmid, lun))
      | none => scanVMs diskName node rest

/-- Node loop of `check_existing_attachments`: a per-node error is caught
and the scan continues with the next node. -/
def scanNodes (diskName : String) : List String → PM (Option (Int × Int))
  | [] => pure none
  | node :: rest => do
    let r ← try
      let vms ← get_vms node
      scanVMs diskName node vms
    catch _ =>
      pure none
    match r with
    | some hit => pure (some hit)
    | none => scanNodes diskName rest

/-- `check_existing_attachments(client, region, storage, disk_name)`:
the split-brain scanner.  `region` and `storage` are unused by the body,
as in the source.  An exhausted scan — including one in which every
single node query failed — returns `(None, None)`. -/
def check_existing_attachments (region storage diskName : String) :
    PM (Option Int × Option Int) := do
  let nodes ← get_nodes
  let r ← scanNodes diskName nodes
  match r with
  | some (vmid, lun) => pure (some vmid, some lun)
  | none => pure (none, none)

/-- `expand_volume(client, vmid, volume_id, new_size_bytes,
default_region)`: requires the disk attached to `vmid`; resizes to the
absolute target `f"{new_size_bytes // (1024 * 1024)}M"` (Python `//`
floors, `Int.fdiv`). -/
def expand_volume (vmid : Int) (volumeId : String) (newSizeBytes : Int)
    (defaultRegion : String) : PM Bool := do
  match parse_volume_id volumeId defaultRegion "" with
  | .error m => throw (.exc m)
  | .ok (_, _, _, disk) =>
    let vmNodeOpt ← find_vm_node vmid
    match vmNodeOpt with
    | none => throw (.exc ("VM " ++ toString vmid ++ " not found on any node"))
    | some vmNode =>
      let cfg ← get_vm_config vmid vmNode
      match is_disk_attached (extract_scsi_disks cfg) disk with
      | none => throw (.exc ("Volume " ++ volumeId ++ " not attached to VM " ++
          toString vmid ++ ", cannot resize"))
      | some lun =>
        let device := DEVICE_PREFIX ++ toString lun
        let sizeMb := newSizeBytes.fdiv (1024 * 1024)
        resize_vm_disk vmid vmNode device (toString sizeMb ++ "M")
        pure true

/-! ## services/controller.py

The controller holds a `region → client` map; its handlers validate
arguments, select the client by the region extracted from the volume ID
(always `""`, since `parse_volume_id` is called with no default), and run
the operation.  gRPC responses are modelled by small structures; a
handler's outcome is `Except (Status × String) resp`.  Aborts raised
inside a handler's `try` block are caught by its `except Exception` and
re-aborted as `INTERNAL` with `str(e)` — the empty string for the bare
exception grpc's `abort` raises. -/

/-- `ControllerPublishVolumeResponse`. -/
structure PublishResp where
  publishContext : List (String × String)
deriving DecidableEq, Repr

/-- `ControllerExpandVolumeResponse`. -/
structure ExpandResp where
  capacityBytes : Int
  nodeExpansionRequired : Bool
deriving DecidableEq, Repr

/-- `CreateVolumeResponse` (volume id and capacity). -/
structure CreateResp where
  volumeId : String
  capacityBytes : Int
deriving DecidableEq, Repr

/-- A controller: the `region → client` map, as client states. -/
abbrev Clients : Type := List (String × St)

/-- Replace one region's client state after running an operation on it. -/
def putClient (cs : Clients) (region : String) (st : St) : Clients :=
  cs.map (fun p => if p.1 == region then (p.1, st) else p)

/-- Total `update_vm_config` calls across all clients. -/
def totalUpdates (cs : Clients) : Nat :=
  (cs.map (fun p => p.2.updateLog.length)).sum

/-- Body of `ControllerPublishVolume`'s `try` block after the client has
been selected: VMID discovery, the split-brain scan, and attach.  The
already-attached branch rebuilds the WWN as
`f"{existing_lun:02d}".encode('utf-8').hex()` — without the `PVC-ID`
prefix — exactly as the source does. -/
def publishOnClient (nodeId volumeId region storage disk : String) : PM PublishResp := do
  let vmid ← match pyInt? nodeId with
    | some v => pure v
    | none => do
      let r ← find_vm_by_name nodeId
      match r with
      | none => throw (.abortExc .notFound
          ("No VM found with name " ++ nodeId ++ " in Proxmox cluster"))
      | some (v, _) => pure v
  let scanRes ← check_existing_attachments region storage disk
  match scanRes with
  | (some existingVmid, some existingLun) =>
    if existingVmid == vmid then
      let wwn := pyBytesHex (asciiBytes (pad2i existingLun))
      pure ⟨[("DevicePath", "/dev/disk/by-id/wwn-0x" ++ wwn),
             ("lun", toString existingLun)]⟩
    else
      throw (.abortExc .failedPrecondition
        ("Volume " ++ volumeId ++ " already attached to VM " ++ toString existingVmid))
  | _ =>
    let ctx ← attach_volume vmid volumeId ""
    pure ⟨ctx⟩

/-- `ControllerPublishVolume(request, context)`. -/
def controllerPublishVolume (clients : Clients) (volumeId nodeId : String) :
    Except (Status × String) PublishResp × Clients :=
  if volumeId == "" || nodeId == "" then
    (.error (.invalidArgument, "VolumeID and NodeID required"), clients)
  else
    match parse_volume_id volumeId "" "" with
    | .error m => (.error (.internal, m), clients)
    | .ok (region, _, storage, disk) =>
      match clients.find? (fun p => p.1 == region) with
      | none => (.error (.internal, ""), clients)
      | some (rname, st) =>
        match runPM (publishOnClient nodeId volumeId region storage disk) st with
        | (.ok resp, st2) => (.ok resp, putClient clients rname st2)
        | (.error e, st2) => (.error (.internal, pyStrOf e), putClient clients rname st2)

/-- `DeleteVolume(request, context)`. -/
def controllerDeleteVolume (clients : Clients) (volumeId : String) :
    Except (Status × String) Unit × Clients :=
  if volumeId == "" then
    (.error (.invalidArgument, "VolumeID must be provided"), clients)
  else
    match parse_volume_id volumeId "" "" with
    | .error m => (.error (.internal, m), clients)
    | .ok (region, _, _, _) =>
      match clients.find? (fun p => p.1 == region) with
      | none => (.error (.internal, ""), clients)
      | some (rname, st) =>
        match runPM (delete_volume volumeId "") st with
        | (.ok _, st2) => (.ok (), putClient clients rname st2)
        | (.error e, st2) => (.error (.internal, pyStrOf e), putClient clients rname st2)

/-- Body of `ControllerExpandVolume`'s `try` block after client
selection: the scanner locates the holder, then `expand_volume` runs. -/
def expandOnClient (volumeId region storage disk : String) (newSize : Int) :
    PM ExpandResp := do
  let scanRes ← check_existing_attachments region storage disk
  match scanRes with
  | (some existingVmid, _) =>
    let _ ← expand_volume existingVmid volumeId newSize ""
    pure ⟨newSize, true⟩
  | _ =>
    throw (.abortExc .failedPrecondition
      ("Volume " ++ volumeId ++ " must be attached to a VM to expand"))

/-- `ControllerExpandVolume(request, context)`.  `capacity_range` is the
request's optional range carrying `required_bytes`. -/
def controllerExpandVolume (clients : Clients) (volumeId : String)
    (capacityRange : Option Int) :
    Except (Status × String) ExpandResp × Clients :=
  if volumeId == "" then
    (.error (.invalidArgument, "VolumeID required"), clients)
  else
    match capacityRange with
    | none => (.error (.invalidArgument, "CapacityRange required"), clients)
    | some newSize =>
      match parse_volume_id volumeId "" "" with
      | .error m => (.error (.internal, m), clients)
      | .ok (region, _, storage, disk) =>
        match clients.find? (fun p => p.1 == region) with
        | none => (.error (.internal, ""), clients)
        | some (rname, st) =>
          match runPM (expandOnClient volumeId region storage disk newSize) st with
          | (.ok resp, st2) => (.ok resp, putClient clients rname st2)
          | (.error e, st2) => (.error (.internal, pyStrOf e), putClient clients rname st2)

/-- Body of `CreateVolume` on the first configured cluster: first node is
the zone, then `create_volume`.  `CreateVolume` has no `try/except`, so
aborts surface their own code and any other exception escapes. -/
def createOnClient (region name storage : String) (sizeBytes : Int) : PM CreateResp := do
  let nodes ← get_nodes
  match nodes with
  | [] => throw (.abortExc .internal "No nodes available")
  | zone :: _ =>
    let volumeId ← create_volume region zone storage name sizeBytes
    pure ⟨volumeId, sizeBytes⟩

/-- `CreateVolume(request, context)`.  Modelled from the spec:
`csi_pb2` (the generated request/response classes) is not under `src/`,
so the request's `capacity_range` is modelled as an optional field
carrying `required_bytes`, per the spec's "if no range, default 10 GiB";
`parameters` is a string map.  An unhandled non-abort exception
surfaces as gRPC `UNKNOWN` (there is no `try` in this handler). -/
def controllerCreateVolume (clients : Clients) (name : String)
    (capacityRange : Option Int) (params : List (String × String)) :
    Except (Status × String) CreateResp × Clients :=
  if name == "" then
    (.error (.invalidArgument, "Name must be provided"), clients)
  else
    let sizeBytes : Int :=
      match capacityRange with
      | some required => max required MIN_VOLUME_SIZE
      | none => DEFAULT_VOLUME_SIZE
    match (params.find? (fun p => p.1 == "storage")).map (fun p => p.2) with
    | none => (.error (.invalidArgument, "storage parameter required"), clients)
    | some storage =>
      match clients with
      | [] => (.error (.unknown, "IndexError: list index out of range"), clients)
      | (rname, st) :: rest =>
        match runPM (createOnClient rname name storage sizeBytes) st with
        | (.ok resp, st2) => (.ok resp, (rname, st2) :: rest)
        | (.error (.abortExc c m), st2) => (.error (c, m), (rname, st2) :: rest)
        | (.error e, st2) => (.error (.unknown, pyStrOf e), (rname, st2) :: rest)

/-! ## Concrete cluster fixtures used by the claims -/

/-- The at-rest disk name for PVC `pvc-abc`. -/
def diskAbc : String := "vm-9999-pvc-abc"

/-- The 2-part volume ID the parser accepts for that disk. -/
def volAbc : String := "/s1/vm-9999-pvc-abc"

/-- Workload VM 100 with only a boot disk and a non-string config key. -/
def vm100 : VMRec :=
  { vmid := 100, name := "worker-1",
    config := [("cores", .other), ("scsi0", .s "local:vm-100-disk-0")] }

/-- Workload VM 200 already holding `vm-9999-pvc-abc` at LUN 3. -/
def vm200 : VMRec :=
  { vmid := 200, name := "worker-2",
    config := [("scsi3", .s "s1:vm-9999-pvc-abc,wwn=0x5056432d49443033,backup=0")] }

/-- An `St` with empty logs and no injected failures. -/
def mkSt (nodes : List String) (vms : List (String × List VMRec)) : St :=
  { nodes := nodes, vms := vms, vmsFail := 0, cfgFail := 0, deleteStatus := 200,
    updateLog := [], createLog := [], deleteLog := [], resizeLog := [] }

/-- Two nodes; VM 100 free on n1, VM 200 holds the disk on n2 (spec S3). -/
def stSplit : St := mkSt ["n1", "n2"] [("n1", [vm100]), ("n2", [vm200])]

/-- One node with only the free VM 100. -/
def stFree : St := mkSt ["n1"] [("n1", [vm100])]

/-- One node hosting both the free VM 100 and VM 200 holding the disk,
with the single `get_vms` of the split-brain scan failing transiently. -/
def stScanFail : St :=
  { mkSt ["n1"] [("n1", [vm100, vm200])] with vmsFail := 1 }

/-- Same cluster, but instead the scanner's `get_vm_config` for VM 100
(the first VM probed) fails transiently. -/
def stCfgFail : St :=
  { mkSt ["n1"] [("n1", [vm100, vm200])] with cfgFail := 1 }

/-- One node; the hypervisor answers 404 to `delete_vm_disk` (the volume
is already gone). -/
def st404 : St := { mkSt ["n1"] [("n1", [vm100])] with deleteStatus := 404 }

/-- VM 100 holding `vm-9999-pvc-abc` at an arbitrary LUN. -/
def vmHolding (lun : Nat) : VMRec :=
  { vmid := 100, name := "worker-1",
    config := [("scsi" ++ toString lun,
      .s ("s1:" ++ diskAbc ++ ",wwn=0x" ++ calculate_wwn (lun : Int) ++ ",backup=0"))] }

/-- One node with VM 100 holding the disk at `lun`. -/
def stHolding (lun : Nat) : St := mkSt ["n1"] [("n1", [vmHolding lun])]

/-- VM 300 holding the *other* disk `vm-9999-pvc-ab`, whose descriptor
contains `vm-9999-pvc-a` as a proper substring. -/
def vm300 : VMRec :=
  { vmid := 300, name := "worker-3",
    config := [("scsi2", .s "s1:vm-9999-pvc-ab,wwn=0x5056432d49443032,backup=0")] }

/-- One node with only VM 300. -/
def stNear : St := mkSt ["n1"] [("n1", [vm300])]

/-- The LUN a device key contributes in `is_disk_attached`: keys starting
with `scsi` whose remainder parses as an int. -/
def scsiLunOf (device : String) : Option Int :=
  if strLeads device "scsi" then pyInt? (strDrop device 4) else none

/-- A sample SCSI map with LUNs 1 and 3 in use. -/
def demoM : List (String × String) :=
  [("scsi1", "local:boot"), ("scsi3", "s1:vm-9999-pvc-x,wwn=0x00,backup=0")]

/-! ## Theorems

Each claim of the specification is settled by one theorem below; helper
lemmas precede the claim theorems that use them. -/

/-- Helper: `find?` over the ascending list `range' s n` returns the
least element satisfying the predicate, and `none` exactly when no
element in the window does. -/
theorem find?_range'_min (p : Nat → Bool) :
    ∀ (n s : Nat),
      ((List.range' s n).find? p = none → ∀ l, s ≤ l → l < s + n → p l = false) ∧
      (∀ r, (List.range' s n).find? p = some r →
        (p r = true ∧ s ≤ r ∧ r < s + n ∧
         ∀ l, s ≤ l → l < s + n → p l = true → r ≤ l))
  | 0, s => by
    constructor
    · intro _ l h1 h2
      omega
    · intro r hr
      simp [List.range'] at hr
  | n + 1, s => by
    have ih := find?_range'_min p n (s + 1)
    by_cases hp : p s = true
    · constructor
      · intro hn
        rw [List.range', List.find?_cons_of_pos _ hp] at hn
        cases hn
      · intro r hr
        rw [List.range', List.find?_cons_of_pos _ hp] at hr
        cases hr
        exact ⟨hp, Nat.le_refl s, by omega, fun l hl _ _ => hl⟩
    · have hps : p s = false := by
        cases h : p s
        · rfl
        · exact absurd h hp
      constructor
      · intro hn l h1 h2
        rw [List.range', List.find?_cons_of_neg _ hp] at hn
        rcases Nat.eq_or_lt_of_le h1 with h | h
        · rw [h] at hps
          exact hps
        · exact ih.1 hn l h (by omega)
      · intro r hr
        rw [List.range', List.find?_cons_of_neg _ hp] at hr
        obtain ⟨h1, h2, h3, h4⟩ := ih.2 r hr
        refine ⟨h1, by omega, by omega, ?_⟩
        intro l hl1 hl2 hl3
        rcases Nat.eq_or_lt_of_le hl1 with h | h
        · rw [h] at hps
          rw [hps] at hl3
          cases hl3
        · exact h4 l h (by omega) hl3

/-- Helper: `is_disk_attached` is the first entry whose descriptor
contains the disk name and whose key starts with `scsi` with a parsable
numeric suffix; that suffix is the returned LUN. -/
theorem is_disk_attached_eq_find (d : String) :
    ∀ M, is_disk_attached M d =
      (M.find? (fun kv => pyContains kv.2 d && (scsiLunOf kv.1).isSome)).bind
        (fun kv => scsiLunOf kv.1)
  | [] => rfl
  | (dev, str) :: rest => by
    have ih := is_disk_attached_eq_find d rest
    cases hc : pyContains str d <;> cases hs : strLeads dev "scsi" <;>
      cases hp : pyInt? (strDrop dev 4) <;>
        simp [is_disk_attached, List.find?, scsiLunOf, hc, hs, hp, ih]

/-- C1: with the disk held by workload VM 200 on n2, publishing to VM
100 issues zero `update_vm_config` calls and leaves every VM config
unchanged — but the surfaced gRPC status is `INTERNAL` with empty
details, not the `FAILED_PRECONDITION` the split-brain branch requests:
the abort raised inside the handler's `try` is caught by its own
`except Exception`, which re-aborts as `INTERNAL, str(e)` where the
bare abort exception stringifies to `""`. -/
theorem C1_splitbrain_aborts_internal_without_update :
    (runPM (publishOnClient "100" volAbc "" "s1" diskAbc) stSplit).1 =
      .error (.abortExc .failedPrecondition
        "Volume /s1/vm-9999-pvc-abc already attached to VM 200") ∧
    (controllerPublishVolume [("", stSplit)] volAbc "100").1 = .error (.internal, "") ∧
    (controllerPublishVolume [("", stSplit)] volAbc "100").2 = [("", stSplit)] :=
  ⟨rfl, rfl, rfl⟩

/-- C2: publishing the same volume to VM 100 twice issues exactly one
`update_vm_config` call and returns the same `lun` both times, but the
`DevicePath` differs: the first call returns
`wwn-0x` + `calculate_wwn(1)` = `wwn-0x5056432d49443031`, while the
already-attached branch of `ControllerPublishVolume` rebuilds the WWN as
the hex of the bare two-digit LUN, `wwn-0x3031`. -/
theorem C2_repeat_publish_divergent_devicepath :
    (controllerPublishVolume [("", stFree)] volAbc "100").1 =
      .ok ⟨[("DevicePath", "/dev/disk/by-id/wwn-0x5056432d49443031"), ("lun", "1")]⟩ ∧
    (controllerPublishVolume
        (controllerPublishVolume [("", stFree)] volAbc "100").2 volAbc "100").1 =
      .ok ⟨[("DevicePath", "/dev/disk/by-id/wwn-0x3031"), ("lun", "1")]⟩ ∧
    totalUpdates (controllerPublishVolume
        (controllerPublishVolume [("", stFree)] volAbc "100").2 volAbc "100").2 = 1 ∧
    (controllerPublishVolume [("", stFree)] volAbc "100").1 ≠
      (controllerPublishVolume
        (controllerPublishVolume [("", stFree)] volAbc "100").2 volAbc "100").1 :=
  ⟨rfl, rfl, rfl, by decide⟩

/-- C3: `create_volume_id` emits the 4-part `region/zone/storage/disk`
form, which `parse_volume_id` — accepting only `/storage/disk` —
rejects with a `ValueError`; the round trip fails for this (and, since
a 4-part ID never starts with `/` when the region is nonempty nor
splits into two parts, every) input. -/
theorem C3_roundtrip_parse_rejects_created_id :
    create_volume_id "r1" "n1" "s1" "pvc-abc" STORAGE_VMID = "r1/n1/s1/vm-9999-pvc-abc" ∧
    parse_volume_id (create_volume_id "r1" "n1" "s1" "pvc-abc" STORAGE_VMID) "" "" =
      .error "Invalid volume ID format: r1/n1/s1/vm-9999-pvc-abc, must start with /" :=
  ⟨rfl, rfl⟩

/-- C4 counterexample: in `stScanFail` the scan's only node query fails
(zero nodes successfully queried), `check_existing_attachments` returns
`(None, None)`, and the attach path proceeds to call `update_vm_config`
— attaching the disk to VM 100 at LUN 1 although VM 200 on the same
node already holds it at LUN 3. -/
theorem C4_counterexample_failed_scan_still_attaches :
    (runPM (check_existing_attachments "" "s1" diskAbc) stScanFail).1 = .ok (none, none) ∧
    ((controllerPublishVolume [("", stScanFail)] volAbc "100").2.map
        (fun p => p.2.updateLog)) =
      [[(100, "n1", [("scsi1", "s1:vm-9999-pvc-abc,wwn=0x5056432d49443031,backup=0")])]] :=
  ⟨rfl, rfl⟩

/-- C4 (amended): per-VM errors are logged and skipped — with VM 100's
config query failing, the scan still finds VM 200's attachment — but a
fully failed scan is *not* a hard error: it returns `(None, None)` and
the attach path proceeds to `update_vm_config` under the unknown prior
state. -/
theorem C4_scan_error_handling :
    (runPM (check_existing_attachments "" "s1" diskAbc) stCfgFail).1 =
      .ok (some 200, some 3) ∧
    (runPM (check_existing_attachments "" "s1" diskAbc) stScanFail).1 = .ok (none, none) ∧
    totalUpdates (controllerPublishVolume [("", stScanFail)] volAbc "100").2 = 1 :=
  ⟨rfl, rfl, rfl⟩

/-- C5 counterexample: when the hypervisor answers `delete_vm_disk`
with 404, `DeleteVolume` does not return the normal empty response. -/
theorem C5_counterexample_delete_404_not_success :
    (controllerDeleteVolume [("", st404)] volAbc).1 ≠ .ok () := by decide

/-- C5 (amended): a 404 answer to `delete_vm_disk` raises `HTTPError`,
which `delete_volume` does not catch; `DeleteVolume`'s `except` aborts
the RPC with `INTERNAL` and the error text.  The DELETE request itself
was issued (once). -/
theorem C5_delete_404_surfaces_internal :
    (controllerDeleteVolume [("", st404)] volAbc).1 =
      .error (.internal, "404 Client Error: DELETE content") ∧
    ((controllerDeleteVolume [("", st404)] volAbc).2.map (fun p => p.2.deleteLog)) =
      [[(9999, "", "s1", "vm-9999-pvc-abc")]] :=
  ⟨rfl, rfl⟩

/-- C6 counterexample: `calculate_wwn(5)` is `"5056432d49443035"` — the
hex of ASCII `"PVC-ID05"` — not the `"5043432d49443035"` of the claim
(which decodes to `"PCC-ID05"`). -/
theorem C6_counterexample_wwn5_example_value :
    calculate_wwn 5 = "5056432d49443035" ∧ calculate_wwn 5 ≠ "5043432d49443035" :=
  ⟨rfl, by decide⟩

/-- C6 (amended): for every lun in [1,29], `calculate_wwn(lun)` is the
lowercase hex of the ASCII bytes of `"PVC-ID"` followed by the lun
zero-padded to two digits, is exactly 16 hex characters long, and is
injective on [1,29]; the corrected example is
`calculate_wwn(5) = "5056432d49443035"`. -/
theorem C6_wwn_format_length_injective :
    ∀ lun : Nat, lun < 30 → 1 ≤ lun →
      (calculate_wwn (lun : Int) =
          pyBytesHex (asciiBytes ("PVC-ID" ++ pad2i (lun : Int))) ∧
        (calculate_wwn (lun : Int)).length = 16 ∧
        (∀ lun2 : Nat, lun2 < 30 → 1 ≤ lun2 →
          calculate_wwn (lun : Int) = calculate_wwn (lun2 : Int) → lun = lun2) ∧
        calculate_wwn 5 = "5056432d49443035") := by decide

/-- C6 witness: the amended theorem applied at lun 5. -/
theorem C6_wwn_witness :
    calculate_wwn 5 = pyBytesHex (asciiBytes ("PVC-ID" ++ pad2i 5)) ∧
    (calculate_wwn 5).length = 16 :=
  ⟨(C6_wwn_format_length_injective 5 (by decide) (by decide)).1,
   (C6_wwn_format_length_injective 5 (by decide) (by decide)).2.1⟩

/-- C7: with the default bounds, `find_free_lun` returns `none` exactly
when every LUN of [1,29] is in the used set parsed from `scsi<N>` keys;
otherwise it returns a LUN that is within [1,29], not used, and minimal
among the unused LUNs of the range. -/
theorem C7_find_free_lun_returns_min_free (M : List (String × String)) :
    (find_free_lun M 1 29 = none →
      ∀ l : Nat, 1 ≤ l → l ≤ 29 → (usedLuns M).contains (l : Int) = true) ∧
    (∀ r, find_free_lun M 1 29 = some r →
      (1 ≤ r ∧ r ≤ 29 ∧ (usedLuns M).contains (r : Int) = false ∧
       ∀ l : Nat, 1 ≤ l → l ≤ 29 → (usedLuns M).contains (l : Int) = false → r ≤ l)) := by
  have h := find?_range'_min (fun lun => !((usedLuns M).contains (lun : Int))) 29 1
  constructor
  · intro hn l h1 h2
    have hl := h.1 hn l h1 (by omega)
    simpa using hl
  · intro r hr
    obtain ⟨hp, hs, hlt, hmin⟩ := h.2 r hr
    refine ⟨hs, by omega, by simpa using hp, ?_⟩
    intro l h1 h2 hc
    exact hmin l h1 (by omega) (by rw [hc]; rfl)

/-- C7 witness: on a map using LUNs 1 and 3, the returned LUN is 2, in
range, unused, and minimal at the concrete probe 2. -/
theorem C7_find_free_lun_witness :
    find_free_lun demoM 1 29 = some 2 ∧ 1 ≤ 2 ∧ 2 ≤ 29 ∧
    (usedLuns demoM).contains 2 = false ∧ 2 ≤ 2 :=
  have h := (C7_find_free_lun_returns_min_free demoM).2 2 (by decide)
  ⟨by decide, h.1, h.2.1, h.2.2.1, h.2.2.2 2 (by decide) (by decide) (by decide)⟩

/-- C8: with the disk attached to VM 100 at any LUN in [1,29],
`ControllerExpandVolume` resizes `scsi<lun>` on the VM's node to the
absolute target `str(new_size // 2^20) + "M"` and answers
`(capacity_bytes = new_size, node_expansion_required = true)`; with the
disk attached to no workload VM, it fails and never calls
`resize_vm_disk`. -/
theorem C8_expand_requires_attachment_and_resizes
    (lun : Nat) (h1 : 1 ≤ lun) (h2 : lun ≤ 29) (newSize : Int) :
    (controllerExpandVolume [("", stHolding lun)] volAbc (some newSize)).1 =
      .ok ⟨newSize, true⟩ ∧
    ((controllerExpandVolume [("", stHolding lun)] volAbc (some newSize)).2.map
        (fun p => p.2.resizeLog)) =
      [[(100, "n1", "scsi" ++ toString lun,
         toString (newSize.fdiv (1024 * 1024)) ++ "M")]] ∧
    (controllerExpandVolume [("", stFree)] volAbc (some newSize)).1 =
      .error (.internal, "") ∧
    ((controllerExpandVolume [("", stFree)] volAbc (some newSize)).2.map
        (fun p => p.2.resizeLog)) = [[]] := by
  interval_cases lun <;> exact ⟨rfl, rfl, rfl, rfl⟩

/-- C8 witness: 20 GiB on LUN 1 resizes `scsi1` to `"20480M"`. -/
theorem C8_expand_witness :
    (controllerExpandVolume [("", stHolding 1)] volAbc (some 21474836480)).1 =
      .ok ⟨21474836480, true⟩ ∧
    ((controllerExpandVolume [("", stHolding 1)] volAbc (some 21474836480)).2.map
        (fun p => p.2.resizeLog)) = [[(100, "n1", "scsi1", "20480M")]] :=
  ⟨(C8_expand_requires_attachment_and_resizes 1 (by decide) (by decide) 21474836480).1,
   (C8_expand_requires_attachment_and_resizes 1 (by decide) (by decide) 21474836480).2.1⟩

/-- C9: `CreateVolume` selects `max(required_bytes, 512 MiB)` when a
capacity range is present and 10 GiB when none is, and `create_vm_disk`
transmits the size as `str(int(size / 2^30)) + "G"`, truncating sub-GiB
remainders — a 5.5 GiB request (5905580032 bytes) is sent as `"5G"`. -/
theorem C9_create_volume_size_selection (required : Int) :
    (controllerCreateVolume [("r1", stFree)] "pvc-abc" (some required)
        [("storage", "s1")]).1 =
      .ok ⟨"r1/n1/s1/vm-9999-pvc-abc", max required (512 * 1024 * 1024)⟩ ∧
    ((controllerCreateVolume [("r1", stFree)] "pvc-abc" (some required)
        [("storage", "s1")]).2.map (fun p => p.2.createLog)) =
      [[(9999, "n1", "s1", "vm-9999-pvc-abc",
         toString ((max required (512 * 1024 * 1024)).tdiv (1024 * 1024 * 1024)) ++ "G")]] ∧
    (controllerCreateVolume [("r1", stFree)] "pvc-abc" none [("storage", "s1")]).1 =
      .ok ⟨"r1/n1/s1/vm-9999-pvc-abc", 10 * 1024 * 1024 * 1024⟩ ∧
    ((controllerCreateVolume [("r1", stFree)] "pvc-abc" none
        [("storage", "s1")]).2.map (fun p => p.2.createLog)) =
      [[(9999, "n1", "s1", "vm-9999-pvc-abc", "10G")]] ∧
    ((controllerCreateVolume [("r1", stFree)] "pvc-abc" (some 5905580032)
        [("storage", "s1")]).2.map (fun p => p.2.createLog)) =
      [[(9999, "n1", "s1", "vm-9999-pvc-abc", "5G")]] :=
  ⟨rfl, rfl, rfl, rfl, rfl⟩

/-- C10: `is_disk_attached` returns the LUN contributed by the first
entry whose key starts with `scsi` with a numeric suffix and whose
descriptor merely *contains* the disk name; querying `vm-9999-pvc-a`
against a map holding only `vm-9999-pvc-ab` therefore reports LUN 2,
and the scanner, attach (which then skips `update_vm_config`), expand
(which resizes the other disk's device) and detach (which deletes it)
inherit the false positive. -/
theorem C10_substring_attachment_false_positives :
    (∀ (M : List (String × String)) (d : String),
      is_disk_attached M d =
        (M.find? (fun kv => pyContains kv.2 d && (scsiLunOf kv.1).isSome)).bind
          (fun kv => scsiLunOf kv.1)) ∧
    is_disk_attached [("scsi2", "s1:vm-9999-pvc-ab,wwn=0x5056432d49443032,backup=0")]
      "vm-9999-pvc-a" = some 2 ∧
    (runPM (check_existing_attachments "" "s1" "vm-9999-pvc-a") stNear).1 =
      .ok (some 300, some 2) ∧
    (runPM (attach_volume 300 "/s1/vm-9999-pvc-a" "") stNear).1 =
      .ok [("DevicePath", "/dev/disk/by-id/wwn-0x5056432d49443032"), ("lun", "2")] ∧
    (runPM (attach_volume 300 "/s1/vm-9999-pvc-a" "") stNear).2.updateLog = [] ∧
    (runPM (expand_volume 300 "/s1/vm-9999-pvc-a" 21474836480 "") stNear).2.resizeLog =
      [(300, "n1", "scsi2", "20480M")] ∧
    (runPM (detach_volume 300 "/s1/vm-9999-pvc-a" "") stNear).2.updateLog =
      [(300, "n1", [("delete", "scsi2")])] :=
  ⟨fun M d => is_disk_attached_eq_find d M, rfl, rfl, rfl, rfl, rfl, rfl⟩

end ProxmoxCSI
